import Mathlib

/-!
# The IAP shim of `chip_lpc11xxx/src/iap_11xx.c`

A shallow embedding of the ten `Chip_IAP_*` functions and the properties of
them that the specification states.

Modelling choices.

* A `uint32_t` is a `Nat`.  The only arithmetic in the file is a division by
  1000, a mask and a right shift, none of which can leave the 32-bit range,
  so no reduction modulo `2 ^ 32` is needed anywhere.
* `command[5]` and the result buffer are `Block`s of five words.  A local
  array in C starts with whatever the stack holds; the words a function never
  assigns keep that content, which is the parameter `Env.stack`.
* `iap_entry` is the boot ROM.  It is a parameter (`Env.rom`): a function
  from the command block it is handed to the result buffer it leaves behind.
  Functions that declare `result[3]` read words 0 and 1 of it only.  The ROM
  is taken not to write to the words the caller passes pointers to.
* Every call of `__disable_irq`, `iap_entry`, `__enable_irq` and every store
  through a pointer argument appends one `Event` to `State.trace`, in program
  order.
* A `uint32_t *` is the index of a word in `State.mem`; `p + 1` is the next
  word, as in C.  The null pointer is `0`.
* The three status constants that `chip.h` supplies are not part of the
  source file; they are parameters (`Env.IAP_STA_*`).
-/

namespace IAP

/-! ## Data model -/

/-- Five consecutive 32-bit words, the shape of `uint32_t command[5]` and of
the buffer the ROM writes its result to. -/
structure Block where
  w0 : Nat
  w1 : Nat
  w2 : Nat
  w3 : Nat
  w4 : Nat
deriving DecidableEq, Repr

/-- What a function does that is visible from outside it. -/
inductive Event where
  | disable_irq
  | iap_entry (command : Block)
  | enable_irq
  | store (ptr : Nat) (val : Nat)
deriving DecidableEq, Repr

/-- Caller memory, and the events emitted so far. -/
structure State where
  mem : Nat → Nat
  trace : List Event

/-- Everything the source file takes from outside: the status constants of
`chip.h`, the global `SystemCoreClock`, the ROM behind `iap_entry`, and the
content of the stack where `command` is allocated. -/
structure Env where
  IAP_STA_INVALD_PARAM : Nat
  IAP_STA_SECTOR_NOT_BLANK : Nat
  IAP_STA_COMPARE_ERROR : Nat
  SystemCoreClock : Nat
  rom : Block → Block
  stack : Block

/-! ## IAP command definitions (lines 27-37) -/

def IAP_CMD_PREPARE_SECTORS : Nat := 50
def IAP_CMD_COPY_RAM_TO_FLASH : Nat := 51
def IAP_CMD_ERASE_SECTORS : Nat := 52
def IAP_CMD_BLANK_CHECK_SECTORS : Nat := 53
def IAP_CMD_READ_PART_ID : Nat := 54
def IAP_CMD_READ_BOOT_ROM_VERSION : Nat := 55
def IAP_CMD_COMPARE : Nat := 56
def IAP_CMD_REINVOKE_ISP : Nat := 57
def IAP_CMD_READ_UID : Nat := 58
def IAP_CMD_ERASE_PAGE : Nat := 59

/-! ## Primitives -/

/-- Append one event to the trace. -/
def emit (e : Event) (s : State) : State :=
  { s with trace := s.trace ++ [e] }

/-- The intrinsic `__disable_irq()`. -/
def __disable_irq (s : State) : State :=
  emit Event.disable_irq s

/-- The intrinsic `__enable_irq()`. -/
def __enable_irq (s : State) : State :=
  emit Event.enable_irq s

/-- The call `iap_entry(command, result)`: the ROM is handed the command
block and leaves the result buffer. -/
def iap_entry (env : Env) (command : Block) (s : State) : Block × State :=
  (env.rom command, emit (Event.iap_entry command) s)

/-- The assignment `*ptr = val`. -/
def store (ptr val : Nat) (s : State) : State :=
  { mem := fun a => if a = ptr then val else s.mem a,
    trace := s.trace ++ [Event.store ptr val] }

/-! ## The functions of `iap_11xx.c` -/

/-- Lines 55-76. -/
def Chip_IAP_PrepareSectors (env : Env) (startSector endSector : Nat)
    (s : State) : Nat × State :=
  if endSector < startSector then
    (env.IAP_STA_INVALD_PARAM, s)
  else
    let command := { env.stack with
      w0 := IAP_CMD_PREPARE_SECTORS, w1 := startSector, w2 := endSector }
    let s := __disable_irq s
    let (result, s) := iap_entry env command s
    let s := __enable_irq s
    (result.w0, s)

/-- Lines 92-106. -/
def Chip_IAP_CopyRAMToFlash (env : Env) (dstAddr srcAddr len : Nat)
    (s : State) : Nat × State :=
  let command : Block :=
    { w0 := IAP_CMD_COPY_RAM_TO_FLASH, w1 := dstAddr, w2 := srcAddr, w3 := len,
      w4 := env.SystemCoreClock / 1000 }
  let (result, s) := iap_entry env command s
  (result.w0, s)

/-- Lines 119-141. -/
def Chip_IAP_EraseSectors (env : Env) (startSector endSector : Nat)
    (s : State) : Nat × State :=
  if endSector < startSector then
    (env.IAP_STA_INVALD_PARAM, s)
  else
    let command := { env.stack with
      w0 := IAP_CMD_ERASE_SECTORS, w1 := startSector, w2 := endSector,
      w3 := env.SystemCoreClock / 1000 }
    let (result, s) := iap_entry env command s
    (result.w0, s)

/-- Lines 159-185. -/
def Chip_IAP_BlankCheckSectors (env : Env) (startSector endSector : Nat)
    (result : Nat) (s : State) : Nat × State :=
  if endSector < startSector then
    (env.IAP_STA_INVALD_PARAM, s)
  else
    let command := { env.stack with
      w0 := IAP_CMD_BLANK_CHECK_SECTORS, w1 := startSector, w2 := endSector }
    let (iresult, s) := iap_entry env command s
    let s :=
      if iresult.w0 = env.IAP_STA_SECTOR_NOT_BLANK then
        let s := store result iresult.w0 s
        store (result + 1) iresult.w1 s
      else s
    (iresult.w0, s)

/-- Lines 197-209. -/
def Chip_IAP_ReadPartID (env : Env) (partID : Nat) (s : State) : Nat × State :=
  let command := { env.stack with w0 := IAP_CMD_READ_PART_ID }
  let s := __disable_irq s
  let (result, s) := iap_entry env command s
  let s := __enable_irq s
  let s := store partID result.w1 s
  (result.w0, s)

/-- Lines 222-237. -/
def Chip_IAP_ReadBootVersion (env : Env) (major minor : Nat)
    (s : State) : Nat × State :=
  let command := { env.stack with w0 := IAP_CMD_READ_BOOT_ROM_VERSION }
  let (result, s) := iap_entry env command s
  let s := store major ((result.w1 &&& 0x0000FF00) >>> 8) s
  let s := store minor (result.w1 &&& 0x000000FF) s
  (result.w0, s)

/-- Lines 250-270. -/
def Chip_IAP_Compare (env : Env) (dstAddr srcAddr len offset : Nat)
    (s : State) : Nat × State :=
  let command := { env.stack with
    w0 := IAP_CMD_COMPARE, w1 := dstAddr, w2 := srcAddr, w3 := len }
  let (result, s) := iap_entry env command s
  let s :=
    if result.w0 = env.IAP_STA_COMPARE_ERROR then
      if offset ≠ 0 then store offset result.w1 s else s
    else s
  (result.w0, s)

/-- Lines 282-290. -/
def Chip_IAP_ReinvokeISP (env : Env) (s : State) : State :=
  let command := { env.stack with w0 := IAP_CMD_REINVOKE_ISP }
  let (_, s) := iap_entry env command s
  s

/-- Lines 293-313.  The statement `*UID++ = x` stores through the old value
of `UID` and then advances it. -/
def Chip_IAP_ReadUID (env : Env) (UID : Nat) (s : State) : Nat × State :=
  let command := { env.stack with w0 := IAP_CMD_READ_UID }
  let (result, s) := iap_entry env command s
  let s := store UID result.w1 s
  let s := store UID result.w2 s
  let UID := UID + 1
  let s := store UID result.w3 s
  let UID := UID + 1
  let s := store UID result.w4 s
  let _UID := UID + 1
  (result.w0, s)

/-- Lines 316-338. -/
def Chip_IAP_ErasePage (env : Env) (startPage endPage : Nat)
    (s : State) : Nat × State :=
  if endPage < startPage then
    (env.IAP_STA_INVALD_PARAM, s)
  else
    let command := { env.stack with
      w0 := IAP_CMD_ERASE_PAGE, w1 := startPage, w2 := endPage,
      w3 := env.SystemCoreClock / 1000 }
    let (result, s) := iap_entry env command s
    (result.w0, s)

/-! ## Observations on a trace -/

/-- The command blocks the ROM was called with, in order. -/
def romCalls : List Event → List Block
  | [] => []
  | Event.iap_entry c :: es => c :: romCalls es
  | _ :: es => romCalls es

/-- The stores through caller pointers, in order, as (pointer, value). -/
def stores : List Event → List (Nat × Nat)
  | [] => []
  | Event.store p v :: es => (p, v) :: stores es
  | _ :: es => stores es

/-- The interrupt and ROM events of a trace: everything but the stores. -/
def irqRom : List Event → List Event
  | [] => []
  | Event.store _ _ :: es => irqRom es
  | e :: es => e :: irqRom es

/-- Replays a trace from the interrupt state `irq` (true: enabled) and tells
whether every ROM call in it happens with interrupts disabled. -/
def romMasked (irq : Bool) : List Event → Bool
  | [] => true
  | Event.disable_irq :: es => romMasked false es
  | Event.enable_irq :: es => romMasked true es
  | Event.iap_entry _ :: es => !irq && romMasked irq es
  | Event.store _ _ :: es => romMasked irq es

/-- A call that took the state from `s` to `t` emitted, stores aside, exactly
disable-interrupts, one ROM call, enable-interrupts, in that order; and replayed
from either interrupt state, the ROM call happens with interrupts disabled. -/
def Bracketed (s t : State) : Prop :=
  ∃ (c : Block) (evs : List Event),
    t.trace = s.trace ++ evs
    ∧ irqRom evs = [Event.disable_irq, Event.iap_entry c, Event.enable_irq]
    ∧ ∀ irq, romMasked irq evs = true

/-- A call that took the state from `s` to `t` emitted neither a
disable-interrupts nor an enable-interrupts event. -/
def Unbracketed (s t : State) : Prop :=
  ∃ evs : List Event,
    t.trace = s.trace ++ evs ∧ Event.disable_irq ∉ evs ∧ Event.enable_irq ∉ evs

/-! ## A concrete environment, for evaluating the functions -/

/-- A ROM stub that ignores the command and answers `[8, 0x40, 0xBEEF, 3, 4]`. -/
def stubRom (_ : Block) : Block :=
  { w0 := 8, w1 := 0x40, w2 := 0xBEEF, w3 := 3, w4 := 4 }

/-- Status constants as in NXP's `iap.h`, a 12 MHz clock, the stub ROM and a
stack full of `0xAA` words. -/
def stubEnv : Env :=
  { IAP_STA_INVALD_PARAM := 12
    IAP_STA_SECTOR_NOT_BLANK := 8
    IAP_STA_COMPARE_ERROR := 10
    SystemCoreClock := 12000000
    rom := stubRom
    stack := { w0 := 0xAA, w1 := 0xAA, w2 := 0xAA, w3 := 0xAA, w4 := 0xAA } }

/-- A ROM stub that ignores the command and answers `[0, 0, 0, 0, 0]`:
status 0, success. -/
def okRom (_ : Block) : Block :=
  { w0 := 0, w1 := 0, w2 := 0, w3 := 0, w4 := 0 }

/-- The stub environment with a 12000 Hz clock and the ROM that succeeds. -/
def okEnv : Env :=
  { stubEnv with SystemCoreClock := 12000, rom := okRom }

/-- The stub environment with a ROM that answers `[10, 0x24, 0, 0, 0]`:
status 10, compare error, at offset `0x24`. -/
def cmpEnv : Env :=
  { stubEnv with rom := fun _ => { w0 := 10, w1 := 0x24, w2 := 0, w3 := 0, w4 := 0 } }

/-- The stub environment with a ROM that answers `[0, 0x0000AB12, 0, 0, 0]`. -/
def verEnv : Env :=
  { stubEnv with rom := fun _ => { w0 := 0, w1 := 0x0000AB12, w2 := 0, w3 := 0, w4 := 0 } }

/-- Memory holding `9` in every word, and an empty trace. -/
def s0 : State :=
  { mem := fun _ => 9, trace := [] }

/-! ## Lemmas on the observations -/

theorem romCalls_append (xs ys : List Event) :
    romCalls (xs ++ ys) = romCalls xs ++ romCalls ys := by
  induction xs with
  | nil => rfl
  | cons e es ih => cases e <;> simp [romCalls, ih]

theorem stores_append (xs ys : List Event) :
    stores (xs ++ ys) = stores xs ++ stores ys := by
  induction xs with
  | nil => rfl
  | cons e es ih => cases e <;> simp [stores, ih]

theorem irqRom_append (xs ys : List Event) :
    irqRom (xs ++ ys) = irqRom xs ++ irqRom ys := by
  induction xs with
  | nil => rfl
  | cons e es ih => cases e <;> simp [irqRom, ih]

/-! ## What each function computes

One equation per function, giving the value returned and the final state in
closed form.  `evs` is the list of events the call appends to the trace. -/

theorem PrepareSectors_eq (env : Env) (startN endN : Nat) (s : State)
    (h : startN ≤ endN) :
    Chip_IAP_PrepareSectors env startN endN s
      = ((env.rom (Block.mk 50 startN endN env.stack.w3 env.stack.w4)).w0,
          { mem := s.mem,
            trace := s.trace ++ [Event.disable_irq,
              Event.iap_entry (Block.mk 50 startN endN env.stack.w3 env.stack.w4),
              Event.enable_irq] }) := by
  simp [Chip_IAP_PrepareSectors, Nat.not_lt.mpr h, iap_entry, __disable_irq, __enable_irq,
    emit, IAP_CMD_PREPARE_SECTORS]

theorem CopyRAMToFlash_eq (env : Env) (dst src len : Nat) (s : State) :
    Chip_IAP_CopyRAMToFlash env dst src len s
      = ((env.rom (Block.mk 51 dst src len (env.SystemCoreClock / 1000))).w0,
          { mem := s.mem,
            trace := s.trace ++
              [Event.iap_entry (Block.mk 51 dst src len (env.SystemCoreClock / 1000))] }) := by
  simp [Chip_IAP_CopyRAMToFlash, iap_entry, emit, IAP_CMD_COPY_RAM_TO_FLASH]

theorem EraseSectors_eq (env : Env) (startN endN : Nat) (s : State)
    (h : startN ≤ endN) :
    Chip_IAP_EraseSectors env startN endN s
      = ((env.rom (Block.mk 52 startN endN (env.SystemCoreClock / 1000) env.stack.w4)).w0,
          { mem := s.mem,
            trace := s.trace ++ [Event.iap_entry
              (Block.mk 52 startN endN (env.SystemCoreClock / 1000) env.stack.w4)] }) := by
  simp [Chip_IAP_EraseSectors, Nat.not_lt.mpr h, iap_entry, emit, IAP_CMD_ERASE_SECTORS]

theorem ErasePage_eq (env : Env) (startN endN : Nat) (s : State)
    (h : startN ≤ endN) :
    Chip_IAP_ErasePage env startN endN s
      = ((env.rom (Block.mk 59 startN endN (env.SystemCoreClock / 1000) env.stack.w4)).w0,
          { mem := s.mem,
            trace := s.trace ++ [Event.iap_entry
              (Block.mk 59 startN endN (env.SystemCoreClock / 1000) env.stack.w4)] }) := by
  simp [Chip_IAP_ErasePage, Nat.not_lt.mpr h, iap_entry, emit, IAP_CMD_ERASE_PAGE]

theorem BlankCheckSectors_eq (env : Env) (startN endN result : Nat) (s : State)
    (h : startN ≤ endN) :
    Chip_IAP_BlankCheckSectors env startN endN result s
      = ((env.rom (Block.mk 53 startN endN env.stack.w3 env.stack.w4)).w0,
          if (env.rom (Block.mk 53 startN endN env.stack.w3 env.stack.w4)).w0
              = env.IAP_STA_SECTOR_NOT_BLANK then
            { mem := fun a =>
                if a = result + 1 then
                  (env.rom (Block.mk 53 startN endN env.stack.w3 env.stack.w4)).w1
                else if a = result then
                  (env.rom (Block.mk 53 startN endN env.stack.w3 env.stack.w4)).w0
                else s.mem a,
              trace := s.trace ++
                [Event.iap_entry (Block.mk 53 startN endN env.stack.w3 env.stack.w4),
                 Event.store result
                   (env.rom (Block.mk 53 startN endN env.stack.w3 env.stack.w4)).w0,
                 Event.store (result + 1)
                   (env.rom (Block.mk 53 startN endN env.stack.w3 env.stack.w4)).w1] }
          else
            { mem := s.mem,
              trace := s.trace ++
                [Event.iap_entry (Block.mk 53 startN endN env.stack.w3 env.stack.w4)] }) := by
  simp only [Chip_IAP_BlankCheckSectors, Nat.not_lt.mpr h, iap_entry, emit, store,
    IAP_CMD_BLANK_CHECK_SECTORS, if_false]
  split_ifs <;> simp

theorem ReadPartID_eq (env : Env) (partID : Nat) (s : State) :
    Chip_IAP_ReadPartID env partID s
      = ((env.rom { env.stack with w0 := 54 }).w0,
          { mem := fun a =>
              if a = partID then (env.rom { env.stack with w0 := 54 }).w1 else s.mem a,
            trace := s.trace ++ [Event.disable_irq,
              Event.iap_entry { env.stack with w0 := 54 },
              Event.enable_irq,
              Event.store partID (env.rom { env.stack with w0 := 54 }).w1] }) := by
  simp [Chip_IAP_ReadPartID, iap_entry, __disable_irq, __enable_irq, emit, store,
    IAP_CMD_READ_PART_ID]

theorem ReadBootVersion_eq (env : Env) (major minor : Nat) (s : State) :
    Chip_IAP_ReadBootVersion env major minor s
      = ((env.rom { env.stack with w0 := 55 }).w0,
          { mem := fun a =>
              if a = minor then (env.rom { env.stack with w0 := 55 }).w1 &&& 0xFF
              else if a = major then
                ((env.rom { env.stack with w0 := 55 }).w1 &&& 0xFF00) >>> 8
              else s.mem a,
            trace := s.trace ++ [Event.iap_entry { env.stack with w0 := 55 },
              Event.store major (((env.rom { env.stack with w0 := 55 }).w1 &&& 0xFF00) >>> 8),
              Event.store minor ((env.rom { env.stack with w0 := 55 }).w1 &&& 0xFF)] }) := by
  simp [Chip_IAP_ReadBootVersion, iap_entry, emit, store, IAP_CMD_READ_BOOT_ROM_VERSION]

theorem Compare_eq (env : Env) (dst src len offset : Nat) (s : State) :
    Chip_IAP_Compare env dst src len offset s
      = ((env.rom (Block.mk 56 dst src len env.stack.w4)).w0,
          if (env.rom (Block.mk 56 dst src len env.stack.w4)).w0 = env.IAP_STA_COMPARE_ERROR
              ∧ offset ≠ 0 then
            { mem := fun a =>
                if a = offset then (env.rom (Block.mk 56 dst src len env.stack.w4)).w1
                else s.mem a,
              trace := s.trace ++ [Event.iap_entry (Block.mk 56 dst src len env.stack.w4),
                Event.store offset (env.rom (Block.mk 56 dst src len env.stack.w4)).w1] }
          else
            { mem := s.mem,
              trace := s.trace ++
                [Event.iap_entry (Block.mk 56 dst src len env.stack.w4)] }) := by
  simp only [Chip_IAP_Compare, iap_entry, emit, store, IAP_CMD_COMPARE]
  split_ifs <;> simp_all

theorem ReinvokeISP_eq (env : Env) (s : State) :
    Chip_IAP_ReinvokeISP env s
      = { mem := s.mem,
          trace := s.trace ++ [Event.iap_entry { env.stack with w0 := 57 }] } := by
  simp [Chip_IAP_ReinvokeISP, iap_entry, emit, IAP_CMD_REINVOKE_ISP]

theorem ReadUID_eq (env : Env) (UID : Nat) (s : State) :
    Chip_IAP_ReadUID env UID s
      = ((env.rom { env.stack with w0 := 58 }).w0,
          { mem := fun a =>
              if a = UID + 1 + 1 then (env.rom { env.stack with w0 := 58 }).w4
              else if a = UID + 1 then (env.rom { env.stack with w0 := 58 }).w3
              else if a = UID then (env.rom { env.stack with w0 := 58 }).w2
              else s.mem a,
            trace := s.trace ++ [Event.iap_entry { env.stack with w0 := 58 },
              Event.store UID (env.rom { env.stack with w0 := 58 }).w1,
              Event.store UID (env.rom { env.stack with w0 := 58 }).w2,
              Event.store (UID + 1) (env.rom { env.stack with w0 := 58 }).w3,
              Event.store (UID + 1 + 1) (env.rom { env.stack with w0 := 58 }).w4] }) := by
  simp only [Chip_IAP_ReadUID, iap_entry, emit, store, IAP_CMD_READ_UID]
  simp
  funext a
  split_ifs <;> simp_all

/-! ## The two byte fields of a word -/

theorem and_FF00_shiftRight (r : Nat) : (r &&& 0x0000FF00) >>> 8 = (r >>> 8) &&& 0xFF := by
  apply Nat.eq_of_testBit_eq
  intro i
  have h1 : (0xFF00 : Nat) = 0xFF <<< 8 := by decide
  have h2 : (0xFF : Nat) = 2 ^ 8 - 1 := by decide
  rw [h1, h2]
  simp only [Nat.testBit_shiftRight, Nat.testBit_and, Nat.testBit_shiftLeft,
    Nat.testBit_two_pow_sub_one]
  simp

theorem and_FF_eq_mod (r : Nat) : r &&& 0xFF = r % 256 :=
  Nat.and_pow_two_sub_one_eq_mod r 8

theorem shiftRight_and_FF_eq (r : Nat) : (r >>> 8) &&& 0xFF = r / 256 % 256 := by
  rw [and_FF_eq_mod, Nat.shiftRight_eq_div_pow]

/-! ## Range guard -/

/-- C1: when `end < start`, each of `Chip_IAP_PrepareSectors`,
`Chip_IAP_EraseSectors` and `Chip_IAP_ErasePage` returns
`IAP_STA_INVALD_PARAM` and hands back the state it was given: no event is
emitted, so the ROM entry point has been called zero times. -/
theorem range_guard_rejects (env : Env) (startN endN : Nat) (s : State)
    (h : endN < startN) :
    (Chip_IAP_PrepareSectors env startN endN s = (env.IAP_STA_INVALD_PARAM, s)
      ∧ romCalls (Chip_IAP_PrepareSectors env startN endN s).2.trace = romCalls s.trace)
    ∧ (Chip_IAP_EraseSectors env startN endN s = (env.IAP_STA_INVALD_PARAM, s)
      ∧ romCalls (Chip_IAP_EraseSectors env startN endN s).2.trace = romCalls s.trace)
    ∧ (Chip_IAP_ErasePage env startN endN s = (env.IAP_STA_INVALD_PARAM, s)
      ∧ romCalls (Chip_IAP_ErasePage env startN endN s).2.trace = romCalls s.trace) := by
  simp [Chip_IAP_PrepareSectors, Chip_IAP_EraseSectors, Chip_IAP_ErasePage, h]

/-- C1 at `start = 5`, `end = 2` on the stub environment. -/
theorem range_guard_rejects_witness :
    (2 : Nat) < 5
    ∧ (Chip_IAP_PrepareSectors stubEnv 5 2 s0).1 = 12
    ∧ romCalls (Chip_IAP_EraseSectors stubEnv 5 2 s0).2.trace = []
    ∧ romCalls (Chip_IAP_ErasePage stubEnv 5 2 s0).2.trace = [] :=
  have h := range_guard_rejects stubEnv 5 2 s0 (by decide)
  ⟨by decide, congrArg Prod.fst h.1.1, h.2.1.2, h.2.2.2⟩

/-! ## One ROM call, with the operation code and the range -/

/-- C5: when `start <= end` (so also when `start = end`), each of
`Chip_IAP_PrepareSectors`, `Chip_IAP_EraseSectors` and `Chip_IAP_ErasePage`
adds exactly one ROM call to the trace; the command block of that call has
word 0 equal to 50, 52 and 59 respectively, word 1 equal to `start` and word 2
equal to `end`; and the function returns word 0 of what the ROM answers to
that block. -/
theorem range_ok_calls_rom_once (env : Env) (startN endN : Nat) (s : State)
    (h : startN ≤ endN) :
    (∃ c : Block,
        romCalls (Chip_IAP_PrepareSectors env startN endN s).2.trace = romCalls s.trace ++ [c]
        ∧ c.w0 = 50 ∧ c.w1 = startN ∧ c.w2 = endN
        ∧ (Chip_IAP_PrepareSectors env startN endN s).1 = (env.rom c).w0)
    ∧ (∃ c : Block,
        romCalls (Chip_IAP_EraseSectors env startN endN s).2.trace = romCalls s.trace ++ [c]
        ∧ c.w0 = 52 ∧ c.w1 = startN ∧ c.w2 = endN
        ∧ (Chip_IAP_EraseSectors env startN endN s).1 = (env.rom c).w0)
    ∧ (∃ c : Block,
        romCalls (Chip_IAP_ErasePage env startN endN s).2.trace = romCalls s.trace ++ [c]
        ∧ c.w0 = 59 ∧ c.w1 = startN ∧ c.w2 = endN
        ∧ (Chip_IAP_ErasePage env startN endN s).1 = (env.rom c).w0) := by
  have hn : ¬ endN < startN := Nat.not_lt.mpr h
  refine ⟨⟨Block.mk 50 startN endN env.stack.w3 env.stack.w4, ?_, rfl, rfl, rfl, ?_⟩,
    ⟨Block.mk 52 startN endN (env.SystemCoreClock / 1000) env.stack.w4, ?_, rfl, rfl, rfl, ?_⟩,
    ⟨Block.mk 59 startN endN (env.SystemCoreClock / 1000) env.stack.w4, ?_, rfl, rfl, rfl, ?_⟩⟩ <;>
    simp [Chip_IAP_PrepareSectors, Chip_IAP_EraseSectors, Chip_IAP_ErasePage, hn,
      iap_entry, __disable_irq, __enable_irq, emit, romCalls_append, romCalls,
      IAP_CMD_PREPARE_SECTORS, IAP_CMD_ERASE_SECTORS, IAP_CMD_ERASE_PAGE]

/-- C5 on the scenario of the specification: `PrepareSectors(2, 5)` against a
ROM that answers `[0]` makes one call, with `[50, 2, 5, _, _]`, and returns 0. -/
theorem range_ok_calls_rom_once_witness :
    (2 : Nat) ≤ 5
    ∧ ∃ c : Block,
        romCalls (Chip_IAP_PrepareSectors okEnv 2 5 s0).2.trace = romCalls s0.trace ++ [c]
        ∧ c.w0 = 50 ∧ c.w1 = 2 ∧ c.w2 = 5
        ∧ (Chip_IAP_PrepareSectors okEnv 2 5 s0).1 = 0 := by
  obtain ⟨c, hcalls, h0, h1, h2, hret⟩ := (range_ok_calls_rom_once okEnv 2 5 s0 (by decide)).1
  exact ⟨by decide, c, hcalls, h0, h1, h2, hret.trans rfl⟩

/-! ## The clock word -/

/-- C6: the clock word of a command block is `SystemCoreClock / 1000`, the
truncating quotient (the largest `q` with `1000 * q <= SystemCoreClock`).  It
is word 3 of the one command `Chip_IAP_EraseSectors` and `Chip_IAP_ErasePage`
pass when `start <= end`, and word 4 of the one command
`Chip_IAP_CopyRAMToFlash` passes, which is `[51, dst, src, len, clock / 1000]`
for all `dst`, `src`, `len`. -/
theorem clock_word_is_kHz (env : Env) (startN endN dst src len : Nat) (s : State) :
    (startN ≤ endN → ∃ c : Block,
        romCalls (Chip_IAP_EraseSectors env startN endN s).2.trace = romCalls s.trace ++ [c]
        ∧ c.w3 = env.SystemCoreClock / 1000)
    ∧ (startN ≤ endN → ∃ c : Block,
        romCalls (Chip_IAP_ErasePage env startN endN s).2.trace = romCalls s.trace ++ [c]
        ∧ c.w3 = env.SystemCoreClock / 1000)
    ∧ romCalls (Chip_IAP_CopyRAMToFlash env dst src len s).2.trace
        = romCalls s.trace ++ [Block.mk 51 dst src len (env.SystemCoreClock / 1000)]
    ∧ 1000 * (env.SystemCoreClock / 1000) ≤ env.SystemCoreClock
    ∧ env.SystemCoreClock < 1000 * (env.SystemCoreClock / 1000 + 1) := by
  refine ⟨fun h => ⟨Block.mk 52 startN endN (env.SystemCoreClock / 1000) env.stack.w4, ?_, rfl⟩,
    fun h => ⟨Block.mk 59 startN endN (env.SystemCoreClock / 1000) env.stack.w4, ?_, rfl⟩,
    ?_, Nat.mul_div_le _ _, Nat.lt_mul_div_succ _ (by decide)⟩
  · simp [Chip_IAP_EraseSectors, Nat.not_lt.mpr h, iap_entry, emit, romCalls_append,
      romCalls, IAP_CMD_ERASE_SECTORS]
  · simp [Chip_IAP_ErasePage, Nat.not_lt.mpr h, iap_entry, emit, romCalls_append,
      romCalls, IAP_CMD_ERASE_PAGE]
  · simp [Chip_IAP_CopyRAMToFlash, iap_entry, emit, romCalls_append, romCalls,
      IAP_CMD_COPY_RAM_TO_FLASH]

/-- C6 on the scenario of the specification: `EraseSectors(1, 1)` with a
core clock of 12000 Hz passes 12 in command word 3. -/
theorem clock_word_is_kHz_witness :
    (1 : Nat) ≤ 1
    ∧ ∃ c : Block,
        romCalls (Chip_IAP_EraseSectors okEnv 1 1 s0).2.trace = romCalls s0.trace ++ [c]
        ∧ c.w3 = 12 :=
  ⟨by decide, (clock_word_is_kHz okEnv 1 1 0 0 0 s0).1 (by decide)⟩

/-! ## The status is passed through -/

/-- C4: every function that returns a status makes one ROM call and returns
word 0 of the ROM's answer to the command of that call, whatever that word is:
`Chip_IAP_PrepareSectors`, `Chip_IAP_EraseSectors`, `Chip_IAP_ErasePage` and
`Chip_IAP_BlankCheckSectors` when `start <= end`; `Chip_IAP_CopyRAMToFlash`,
`Chip_IAP_ReadPartID`, `Chip_IAP_ReadBootVersion`, `Chip_IAP_Compare` and
`Chip_IAP_ReadUID` for all arguments. -/
theorem status_passed_through (env : Env) (startN endN dst src len p q : Nat)
    (s : State) :
    (startN ≤ endN → ∃ c : Block,
        romCalls (Chip_IAP_PrepareSectors env startN endN s).2.trace = romCalls s.trace ++ [c]
        ∧ (Chip_IAP_PrepareSectors env startN endN s).1 = (env.rom c).w0)
    ∧ (startN ≤ endN → ∃ c : Block,
        romCalls (Chip_IAP_EraseSectors env startN endN s).2.trace = romCalls s.trace ++ [c]
        ∧ (Chip_IAP_EraseSectors env startN endN s).1 = (env.rom c).w0)
    ∧ (startN ≤ endN → ∃ c : Block,
        romCalls (Chip_IAP_ErasePage env startN endN s).2.trace = romCalls s.trace ++ [c]
        ∧ (Chip_IAP_ErasePage env startN endN s).1 = (env.rom c).w0)
    ∧ (startN ≤ endN → ∃ c : Block,
        romCalls (Chip_IAP_BlankCheckSectors env startN endN p s).2.trace
          = romCalls s.trace ++ [c]
        ∧ (Chip_IAP_BlankCheckSectors env startN endN p s).1 = (env.rom c).w0)
    ∧ (∃ c : Block,
        romCalls (Chip_IAP_CopyRAMToFlash env dst src len s).2.trace = romCalls s.trace ++ [c]
        ∧ (Chip_IAP_CopyRAMToFlash env dst src len s).1 = (env.rom c).w0)
    ∧ (∃ c : Block,
        romCalls (Chip_IAP_ReadPartID env p s).2.trace = romCalls s.trace ++ [c]
        ∧ (Chip_IAP_ReadPartID env p s).1 = (env.rom c).w0)
    ∧ (∃ c : Block,
        romCalls (Chip_IAP_ReadBootVersion env p q s).2.trace = romCalls s.trace ++ [c]
        ∧ (Chip_IAP_ReadBootVersion env p q s).1 = (env.rom c).w0)
    ∧ (∃ c : Block,
        romCalls (Chip_IAP_Compare env dst src len p s).2.trace = romCalls s.trace ++ [c]
        ∧ (Chip_IAP_Compare env dst src len p s).1 = (env.rom c).w0)
    ∧ (∃ c : Block,
        romCalls (Chip_IAP_ReadUID env p s).2.trace = romCalls s.trace ++ [c]
        ∧ (Chip_IAP_ReadUID env p s).1 = (env.rom c).w0) := by
  refine ⟨fun h => ⟨Block.mk 50 startN endN env.stack.w3 env.stack.w4, ?_, ?_⟩,
    fun h => ⟨Block.mk 52 startN endN (env.SystemCoreClock / 1000) env.stack.w4, ?_, ?_⟩,
    fun h => ⟨Block.mk 59 startN endN (env.SystemCoreClock / 1000) env.stack.w4, ?_, ?_⟩,
    fun h => ⟨Block.mk 53 startN endN env.stack.w3 env.stack.w4, ?_, ?_⟩,
    ⟨Block.mk 51 dst src len (env.SystemCoreClock / 1000), ?_, ?_⟩,
    ⟨Block.mk 54 env.stack.w1 env.stack.w2 env.stack.w3 env.stack.w4, ?_, ?_⟩,
    ⟨Block.mk 55 env.stack.w1 env.stack.w2 env.stack.w3 env.stack.w4, ?_, ?_⟩,
    ⟨Block.mk 56 dst src len env.stack.w4, ?_, ?_⟩,
    ⟨Block.mk 58 env.stack.w1 env.stack.w2 env.stack.w3 env.stack.w4, ?_, ?_⟩⟩
  · rw [PrepareSectors_eq env startN endN s h]; simp [romCalls_append, romCalls]
  · rw [PrepareSectors_eq env startN endN s h]
  · rw [EraseSectors_eq env startN endN s h]; simp [romCalls_append, romCalls]
  · rw [EraseSectors_eq env startN endN s h]
  · rw [ErasePage_eq env startN endN s h]; simp [romCalls_append, romCalls]
  · rw [ErasePage_eq env startN endN s h]
  · rw [BlankCheckSectors_eq env startN endN p s h]
    split_ifs <;> simp [romCalls_append, romCalls]
  · rw [BlankCheckSectors_eq env startN endN p s h]
  · rw [CopyRAMToFlash_eq]; simp [romCalls_append, romCalls]
  · rw [CopyRAMToFlash_eq]
  · rw [ReadPartID_eq]; simp [romCalls_append, romCalls]
  · rw [ReadPartID_eq]
  · rw [ReadBootVersion_eq]; simp [romCalls_append, romCalls]
  · rw [ReadBootVersion_eq]
  · rw [Compare_eq]
    split_ifs <;> simp [romCalls_append, romCalls]
  · rw [Compare_eq]
  · rw [ReadUID_eq]; simp [romCalls_append, romCalls]
  · rw [ReadUID_eq]

/-- C4 on the stub environment, whose ROM answers status 8: with
`start = 0 <= end = 3` the four range operations return 8. -/
theorem status_passed_through_witness :
    (0 : Nat) ≤ 3
    ∧ (∃ c : Block,
        romCalls (Chip_IAP_PrepareSectors stubEnv 0 3 s0).2.trace = romCalls s0.trace ++ [c]
        ∧ (Chip_IAP_PrepareSectors stubEnv 0 3 s0).1 = (stubEnv.rom c).w0)
    ∧ (∃ c : Block,
        romCalls (Chip_IAP_BlankCheckSectors stubEnv 0 3 100 s0).2.trace
          = romCalls s0.trace ++ [c]
        ∧ (Chip_IAP_BlankCheckSectors stubEnv 0 3 100 s0).1 = (stubEnv.rom c).w0) :=
  have h := status_passed_through stubEnv 0 3 0 0 0 100 101 s0
  ⟨by decide, h.1 (by decide), h.2.2.2.1 (by decide)⟩

/-! ## Boot version -/

/-- C9: `Chip_IAP_ReadBootVersion` makes one ROM call and then, whatever the
status word of the answer, stores `(r >> 8) & 0xFF` through `major` and
`r & 0xFF` through `minor`, where `r` is word 1 of the answer.  After the call
the `minor` slot holds `r & 0xFF` and, when the two pointers differ, the
`major` slot holds `(r >> 8) & 0xFF`.  Both values are below 256 and
`major * 256 + minor = r mod 2 ^ 16`. -/
theorem boot_version_decoding (env : Env) (major minor : Nat) (s : State) :
    ∃ c : Block,
      romCalls (Chip_IAP_ReadBootVersion env major minor s).2.trace = romCalls s.trace ++ [c]
      ∧ stores (Chip_IAP_ReadBootVersion env major minor s).2.trace
          = stores s.trace ++
              [(major, ((env.rom c).w1 >>> 8) &&& 0xFF), (minor, (env.rom c).w1 &&& 0xFF)]
      ∧ (Chip_IAP_ReadBootVersion env major minor s).2.mem minor = (env.rom c).w1 &&& 0xFF
      ∧ (major ≠ minor →
          (Chip_IAP_ReadBootVersion env major minor s).2.mem major
            = ((env.rom c).w1 >>> 8) &&& 0xFF)
      ∧ ((env.rom c).w1 >>> 8) &&& 0xFF < 256
      ∧ (env.rom c).w1 &&& 0xFF < 256
      ∧ (((env.rom c).w1 >>> 8) &&& 0xFF) * 256 + ((env.rom c).w1 &&& 0xFF)
          = (env.rom c).w1 % 2 ^ 16 := by
  refine ⟨{ env.stack with w0 := 55 }, ?_, ?_, ?_, ?_, ?_, ?_, ?_⟩
  · rw [ReadBootVersion_eq]; simp [romCalls_append, romCalls]
  · rw [ReadBootVersion_eq]; simp [stores_append, stores, and_FF00_shiftRight]
  · rw [ReadBootVersion_eq]; simp
  · intro h
    rw [ReadBootVersion_eq]; simp [h, and_FF00_shiftRight]
  · rw [shiftRight_and_FF_eq]; omega
  · rw [and_FF_eq_mod]; omega
  · rw [shiftRight_and_FF_eq, and_FF_eq_mod]; omega

/-- C9 on the scenario of the specification: the ROM answers
`[_, 0x0000AB12]`, and the slots at 100 (`major`) and 101 (`minor`) end up
holding `0xAB` and `0x12`. -/
theorem boot_version_decoding_witness :
    (100 : Nat) ≠ 101
    ∧ (Chip_IAP_ReadBootVersion verEnv 100 101 s0).2.mem 100 = 0xAB
    ∧ (Chip_IAP_ReadBootVersion verEnv 100 101 s0).2.mem 101 = 0x12 := by
  obtain ⟨c, _, _, hminor, hmajor, _⟩ := boot_version_decoding verEnv 100 101 s0
  refine ⟨by decide, (hmajor (by decide)).trans ?_, hminor.trans ?_⟩
  · show (0x0000AB12 >>> 8 &&& 0xFF : Nat) = 0xAB
    decide
  · show (0x0000AB12 &&& 0xFF : Nat) = 0x12
    decide

/-! ## Compare -/

/-- C7: `Chip_IAP_Compare` makes one ROM call for every `dst`, `src`, `len`.
With `[S, mismatchOffset, ..]` the ROM's answer, it stores through `offset`
exactly when `S` is `IAP_STA_COMPARE_ERROR` and `offset` is not null, and what
it stores then is `mismatchOffset`: the slot holds it afterwards and every other
word of memory is as before.  When `offset` is null, or `S` is any other
status, there is no store and memory is as before. -/
theorem compare_offset_frame (env : Env) (dst src len offset : Nat) (s : State) :
    ∃ c : Block,
      romCalls (Chip_IAP_Compare env dst src len offset s).2.trace = romCalls s.trace ++ [c]
      ∧ stores (Chip_IAP_Compare env dst src len offset s).2.trace
          = stores s.trace ++
              (if (env.rom c).w0 = env.IAP_STA_COMPARE_ERROR ∧ offset ≠ 0
                then [(offset, (env.rom c).w1)] else [])
      ∧ ((env.rom c).w0 = env.IAP_STA_COMPARE_ERROR → offset ≠ 0 →
          (Chip_IAP_Compare env dst src len offset s).2.mem offset = (env.rom c).w1
          ∧ ∀ a, a ≠ offset → (Chip_IAP_Compare env dst src len offset s).2.mem a = s.mem a)
      ∧ (offset = 0 → (Chip_IAP_Compare env dst src len offset s).2.mem = s.mem)
      ∧ ((env.rom c).w0 ≠ env.IAP_STA_COMPARE_ERROR →
          (Chip_IAP_Compare env dst src len offset s).2.mem = s.mem) := by
  refine ⟨Block.mk 56 dst src len env.stack.w4, ?_, ?_, ?_, ?_, ?_⟩
  · rw [Compare_eq]
    split_ifs <;> simp [romCalls_append, romCalls]
  · rw [Compare_eq]
    split_ifs <;> simp [stores_append, stores]
  · intro h1 h2
    rw [Compare_eq]
    simp only [h1, h2, ne_eq, not_false_eq_true, and_self, if_true]
    refine ⟨by simp, fun a ha => by simp [ha]⟩
  · intro h
    rw [Compare_eq]
    simp [h]
  · intro h
    rw [Compare_eq]
    simp [h]

/-- C7 on a ROM that answers `[compare error, 0x24]`: the slot at 100 ends up
holding `0x24`, and with a null `offset` memory is untouched. -/
theorem compare_offset_frame_witness :
    (100 : Nat) ≠ 0
    ∧ (Chip_IAP_Compare cmpEnv 0x1000 0x2000 256 100 s0).2.mem 100 = 0x24
    ∧ (Chip_IAP_Compare cmpEnv 0x1000 0x2000 256 100 s0).2.mem 101 = 9
    ∧ (Chip_IAP_Compare cmpEnv 0x1000 0x2000 256 0 s0).2.mem = s0.mem
    ∧ (Chip_IAP_Compare okEnv 0x1000 0x2000 256 100 s0).2.mem = s0.mem := by
  obtain ⟨c, _, _, hset, _, _⟩ := compare_offset_frame cmpEnv 0x1000 0x2000 256 100 s0
  obtain ⟨d, _, _, _, hnull, _⟩ := compare_offset_frame cmpEnv 0x1000 0x2000 256 0 s0
  obtain ⟨e, _, _, _, _, hother⟩ := compare_offset_frame okEnv 0x1000 0x2000 256 100 s0
  exact ⟨by decide, (hset rfl (by decide)).1, (hset rfl (by decide)).2 101 (by decide),
    hnull rfl, hother (show (0 : Nat) ≠ 10 by decide)⟩

/-! ## Blank check: the frame -/

/-- C8: when `end < start`, or when word 0 of the ROM's answer to the blank
check command is not `IAP_STA_SECTOR_NOT_BLANK`, `Chip_IAP_BlankCheckSectors`
makes no store and leaves all of memory, so both output slots, as it was. -/
theorem blank_check_frame (env : Env) (startN endN result : Nat) (s : State)
    (h : endN < startN
      ∨ (env.rom (Block.mk 53 startN endN env.stack.w3 env.stack.w4)).w0
          ≠ env.IAP_STA_SECTOR_NOT_BLANK) :
    (Chip_IAP_BlankCheckSectors env startN endN result s).2.mem = s.mem
    ∧ (Chip_IAP_BlankCheckSectors env startN endN result s).2.mem result = s.mem result
    ∧ (Chip_IAP_BlankCheckSectors env startN endN result s).2.mem (result + 1)
        = s.mem (result + 1)
    ∧ stores (Chip_IAP_BlankCheckSectors env startN endN result s).2.trace
        = stores s.trace := by
  have key : (Chip_IAP_BlankCheckSectors env startN endN result s).2.mem = s.mem
      ∧ stores (Chip_IAP_BlankCheckSectors env startN endN result s).2.trace
          = stores s.trace := by
    by_cases hlt : endN < startN
    · simp [Chip_IAP_BlankCheckSectors, hlt]
    · have hrom := h.resolve_left hlt
      rw [BlankCheckSectors_eq env startN endN result s (Nat.not_lt.mp hlt)]
      simp [hrom, stores_append, stores]
  exact ⟨key.1, by rw [key.1], by rw [key.1], key.2⟩

/-- C8 on a ROM that answers status 0, and on a rejected range. -/
theorem blank_check_frame_witness :
    ((okEnv.rom (Block.mk 53 0 3 okEnv.stack.w3 okEnv.stack.w4)).w0
        ≠ okEnv.IAP_STA_SECTOR_NOT_BLANK
      ∧ (Chip_IAP_BlankCheckSectors okEnv 0 3 100 s0).2.mem 100 = 9
      ∧ (Chip_IAP_BlankCheckSectors okEnv 0 3 100 s0).2.mem 101 = 9)
    ∧ ((0 : Nat) < 3 ∧ (Chip_IAP_BlankCheckSectors stubEnv 3 0 100 s0).2.mem 100 = 9) :=
  have h1 := blank_check_frame okEnv 0 3 100 s0 (Or.inr (by decide))
  have h2 := blank_check_frame stubEnv 3 0 100 s0 (Or.inl (by decide))
  ⟨⟨by decide, h1.2.1, h1.2.2.1⟩, by decide, h2.2.1⟩

/-! ## Blank check: what is stored -/

/-- C2, evaluated: with `start = end = 0`, output pointer 100 and a ROM that
answers `[8, 0x40, 0xBEEF]` (8 is sector-not-blank), `Chip_IAP_BlankCheckSectors`
returns 8, stores the status 8 in the first slot and the offset `0x40` in the
second; the content `0xBEEF` is stored nowhere. -/
theorem blank_check_stores_status_and_offset :
    (Chip_IAP_BlankCheckSectors stubEnv 0 0 100 s0).1 = 8
    ∧ stores (Chip_IAP_BlankCheckSectors stubEnv 0 0 100 s0).2.trace = [(100, 8), (101, 0x40)]
    ∧ (Chip_IAP_BlankCheckSectors stubEnv 0 0 100 s0).2.mem 100 = 8
    ∧ (Chip_IAP_BlankCheckSectors stubEnv 0 0 100 s0).2.mem 101 = 0x40
    ∧ (Chip_IAP_BlankCheckSectors stubEnv 0 0 100 s0).2.mem 100 ≠ 0x40
    ∧ (Chip_IAP_BlankCheckSectors stubEnv 0 0 100 s0).2.mem 101 ≠ 0xBEEF := by
  refine ⟨rfl, rfl, rfl, rfl, ?_, ?_⟩ <;> decide

/-! ## Unique identifier -/

/-- C3, evaluated: with output pointer 100, memory holding 9 everywhere and a
ROM that answers `[8, 0x40, 0xBEEF, 3, 4]`, `Chip_IAP_ReadUID` returns 8 and
stores `0x40` then `0xBEEF` in slot 0, `3` in slot 1 and `4` in slot 2; slot 3
keeps its 9. -/
theorem read_uid_slots_shifted :
    (Chip_IAP_ReadUID stubEnv 100 s0).1 = 8
    ∧ stores (Chip_IAP_ReadUID stubEnv 100 s0).2.trace
        = [(100, 0x40), (100, 0xBEEF), (101, 3), (102, 4)]
    ∧ (Chip_IAP_ReadUID stubEnv 100 s0).2.mem 100 = 0xBEEF
    ∧ (Chip_IAP_ReadUID stubEnv 100 s0).2.mem 101 = 3
    ∧ (Chip_IAP_ReadUID stubEnv 100 s0).2.mem 102 = 4
    ∧ (Chip_IAP_ReadUID stubEnv 100 s0).2.mem 103 = 9 := by
  refine ⟨rfl, rfl, rfl, rfl, rfl, rfl⟩

/-! ## Interrupt bracket -/

/-- C10 as stated fails for read-UID: on the stub environment the events
`Chip_IAP_ReadUID` emits, stores aside, are the ROM call alone, so the call is
not bracketed, and replayed with interrupts enabled the ROM call happens with
interrupts enabled. -/
theorem read_uid_not_bracketed :
    irqRom (Chip_IAP_ReadUID stubEnv 100 s0).2.trace
        = [Event.iap_entry { stubEnv.stack with w0 := 58 }]
    ∧ romMasked true (Chip_IAP_ReadUID stubEnv 100 s0).2.trace = false
    ∧ ¬ Bracketed s0 (Chip_IAP_ReadUID stubEnv 100 s0).2 := by
  refine ⟨rfl, rfl, ?_⟩
  rintro ⟨c, evs, htrace, hirq, -⟩
  have hevs : evs = (Chip_IAP_ReadUID stubEnv 100 s0).2.trace := by
    rw [htrace]; rfl
  rw [hevs] at hirq
  have hlen : (1 : Nat) = 3 := congrArg List.length hirq
  exact absurd hlen (by decide)

/-- C10, amended: `Chip_IAP_PrepareSectors` (when `start <= end`) and
`Chip_IAP_ReadPartID` emit, stores aside, exactly disable-interrupts, ROM call,
enable-interrupts, so their ROM call happens with interrupts disabled.
`Chip_IAP_CopyRAMToFlash`, `Chip_IAP_EraseSectors`, `Chip_IAP_ErasePage`,
`Chip_IAP_BlankCheckSectors`, `Chip_IAP_ReadBootVersion`, `Chip_IAP_Compare`,
`Chip_IAP_ReinvokeISP` and `Chip_IAP_ReadUID` emit no disable-interrupts and no
enable-interrupts event. -/
theorem irq_bracket_per_operation (env : Env) (startN endN dst src len p q : Nat)
    (s : State) :
    (startN ≤ endN → Bracketed s (Chip_IAP_PrepareSectors env startN endN s).2)
    ∧ Bracketed s (Chip_IAP_ReadPartID env p s).2
    ∧ Unbracketed s (Chip_IAP_CopyRAMToFlash env dst src len s).2
    ∧ Unbracketed s (Chip_IAP_EraseSectors env startN endN s).2
    ∧ Unbracketed s (Chip_IAP_ErasePage env startN endN s).2
    ∧ Unbracketed s (Chip_IAP_BlankCheckSectors env startN endN p s).2
    ∧ Unbracketed s (Chip_IAP_ReadBootVersion env p q s).2
    ∧ Unbracketed s (Chip_IAP_Compare env dst src len p s).2
    ∧ Unbracketed s (Chip_IAP_ReinvokeISP env s)
    ∧ Unbracketed s (Chip_IAP_ReadUID env p s).2 := by
  refine ⟨fun h => ?_, ?_, ?_, ?_, ?_, ?_, ?_, ?_, ?_, ?_⟩
  · rw [PrepareSectors_eq env startN endN s h]
    exact ⟨_, _, rfl, rfl, fun irq => by cases irq <;> rfl⟩
  · rw [ReadPartID_eq]
    exact ⟨_, _, rfl, rfl, fun irq => by cases irq <;> rfl⟩
  · rw [CopyRAMToFlash_eq]
    exact ⟨_, rfl, by simp, by simp⟩
  · by_cases hlt : endN < startN
    · exact ⟨[], by simp [Chip_IAP_EraseSectors, hlt], by simp, by simp⟩
    · rw [EraseSectors_eq env startN endN s (Nat.not_lt.mp hlt)]
      exact ⟨_, rfl, by simp, by simp⟩
  · by_cases hlt : endN < startN
    · exact ⟨[], by simp [Chip_IAP_ErasePage, hlt], by simp, by simp⟩
    · rw [ErasePage_eq env startN endN s (Nat.not_lt.mp hlt)]
      exact ⟨_, rfl, by simp, by simp⟩
  · by_cases hlt : endN < startN
    · exact ⟨[], by simp [Chip_IAP_BlankCheckSectors, hlt], by simp, by simp⟩
    · rw [BlankCheckSectors_eq env startN endN p s (Nat.not_lt.mp hlt)]
      split_ifs
      · exact ⟨_, rfl, by simp, by simp⟩
      · exact ⟨_, rfl, by simp, by simp⟩
  · rw [ReadBootVersion_eq]
    exact ⟨_, rfl, by simp, by simp⟩
  · rw [Compare_eq]
    split_ifs
    · exact ⟨_, rfl, by simp, by simp⟩
    · exact ⟨_, rfl, by simp, by simp⟩
  · rw [ReinvokeISP_eq]
    exact ⟨_, rfl, by simp, by simp⟩
  · rw [ReadUID_eq]
    exact ⟨_, rfl, by simp, by simp⟩

/-- C10, amended, on `PrepareSectors(2, 5)`. -/
theorem irq_bracket_per_operation_witness :
    (2 : Nat) ≤ 5 ∧ Bracketed s0 (Chip_IAP_PrepareSectors okEnv 2 5 s0).2 :=
  ⟨by decide, (irq_bracket_per_operation okEnv 2 5 0 0 0 0 0 s0).1 (by decide)⟩

end IAP
